import Mathlib

/-!
Verification of the geo/ML backend in `src/main.py` (a Flask service that
resolves (lon, lat) queries into soil type and slope, and runs a landslide
classifier on a 15-field feature vector).

The Python source is shallowly embedded: Python floats become `ℚ` (with an
explicit `PyFloat` type where non-finite values matter), fallible code
returns `Except`, JSON request bodies become association lists of `JVal`,
and the external libraries (pyproj, geopandas/shapely, rasterio, sklearn)
become function-valued parameters or record fields whose observable behavior
is the one the source relies on.
-/

/-- A Python float that may be non-finite (used where pyproj can produce or
consume infinities / NaN). -/
inductive PyFloat where
  | val (q : ℚ)
  | inf
  | neginf
  | nan
deriving DecidableEq, Repr

/-- Error kind named by the specification's taxonomy for coordinate input
validation failures. -/
inductive CoordError where
  | invalidCoordinate
deriving DecidableEq, Repr

/-- Embedding of `convert_coords` (src/main.py lines 80-82).  The source
builds a pyproj `Transformer` for the target CRS and returns
`transformer.transform(lon, lat)` unconditionally: there is no validation of
the inputs, so the call never produces a coordinate error.  The transformer
itself is the parameter `tf` (total, matching pyproj's default
`errcheck=False` behavior, which yields infinite outputs instead of raising
for out-of-domain points). -/
def convert_coords (tf : PyFloat → PyFloat → PyFloat × PyFloat)
    (lon lat : PyFloat) : Except CoordError (PyFloat × PyFloat) :=
  Except.ok (tf lon lat)

/-- A concrete stand-in for a pyproj transformer with the default
`errcheck=False`: finite in-domain geographic input is projected (here by an
arbitrary linear map), anything else yields infinite coordinates and no
exception. -/
def pyprojModelTf (lon lat : PyFloat) : PyFloat × PyFloat :=
  match lon, lat with
  | PyFloat.val lo, PyFloat.val la =>
      if -180 ≤ lo ∧ lo ≤ 180 ∧ -90 ≤ la ∧ la ≤ 90 then
        (PyFloat.val (100 * lo), PyFloat.val (100 * la))
      else (PyFloat.inf, PyFloat.inf)
  | _, _ => (PyFloat.inf, PyFloat.inf)

/-- Axis-aligned bounding box of a polygon feature (shapely `bounds`). -/
structure Box where
  minx : ℚ
  miny : ℚ
  maxx : ℚ
  maxy : ℚ

/-- A point's degenerate bounding box intersects a feature's bounding box
exactly when the box contains the point; this is the candidate test the
spatial index performs on `point.bounds`. -/
def boxContainsPt (b : Box) (x y : ℚ) : Bool :=
  decide (b.minx ≤ x ∧ x ≤ b.maxx ∧ b.miny ≤ y ∧ y ≤ b.maxy)

/-- One row of the soil GeoDataFrame: its geometry is abstracted to the
point-intersection test shapely provides (`containsPt x y` is
`geometry.intersects(Point(x, y))`, boundary included), together with the
geometry's bounding box and the row's optional `SNUM` attribute. -/
structure Feature where
  containsPt : ℚ → ℚ → Bool
  bbox : Box
  snum : Option String

/-- The loaded soil GeoDataFrame together with its spatial index.
`features` is the row collection in load order; `sindexQuery lon lat`
models `soil_gdf.sindex.intersection(point.bounds)`: the row positions
whose bounding boxes intersect the degenerate box at the point, returned in
the backend's traversal order.  geopandas does NOT promise this order to be
ascending (the rtree backend yields tree-traversal order, and the STRtree
backend leaves results unsorted by default), so the order is left
unconstrained here; each theorem states the properties it needs of the
query as explicit hypotheses. -/
structure Gdf where
  features : List Feature
  sindexQuery : ℚ → ℚ → List ℕ

/-- Embedding of `get_soil_type` (src/main.py lines 86-104).
`possible_matches` is `soil_gdf.iloc[possible_matches_index]`: the rows at
the queried positions, in the query's own order (`iloc` with a position
list, and the boolean mask after it, both preserve that order — not load
order); `precise_matches` keeps the rows intersecting the point, and
`.iloc[0]` takes the first one, whose `SNUM` attribute (default
`"Unknown"`) is returned.  An out-of-range position would make `iloc`
raise, so `filterMap get?` coincides with the source on the valid queries
the theorems consider.  A `Point` with finite rational coordinates is
always valid, so the `point.is_valid` guard never fires in the model, and
the shapely/pandas operations on loaded data do not raise, so the `except`
branch (`"Error during processing"`) is unreachable here. -/
def get_soil_type (soil_gdf : Option Gdf) (lon lat : ℚ) : String :=
  match soil_gdf with
  | none => "Error: Shapefile not loaded"
  | some g =>
    let possible_matches :=
      (g.sindexQuery lon lat).filterMap (fun i => g.features.get? i)
    let precise_matches :=
      possible_matches.filter (fun f => f.containsPt lon lat)
    match precise_matches with
    | [] => "Unknown"
    | f :: _ => f.snum.getD "Unknown"

def featUnit : Feature :=
  { containsPt := fun x y => decide (0 ≤ x ∧ x ≤ 10 ∧ 0 ≤ y ∧ y ≤ 10)
    bbox := ⟨0, 0, 10, 10⟩
    snum := some "A" }

def featOverlap : Feature :=
  { containsPt := fun x y => decide (5 ≤ x ∧ x ≤ 20 ∧ 5 ≤ y ∧ y ≤ 20)
    bbox := ⟨5, 5, 20, 20⟩
    snum := some "B" }

/-- Two overlapping polygons whose spatial index answers the query at
(7, 7) with the candidate positions in descending order `[1, 0]` — an
admissible answer, since the backend's candidate order is unspecified. -/
def gdfQueryOrder : Gdf :=
  { features := [featUnit, featOverlap]
    sindexQuery := fun _ _ => [1, 0] }

/-- C1 counterexample: the point (7, 7) lies in both overlapping polygons
(load indices 0 and 1) and the index query is sound — every candidate
position is valid and every containing row is among the candidates — yet
the lookup returns "B", the attribute of load index 1, not "A", the
attribute of the lowest-load-index match: `precise_matches.iloc[0]` follows
the index's candidate order, which need not be ascending. -/
theorem soil_query_order_cex :
    featUnit.containsPt 7 7 = true ∧
    featOverlap.containsPt 7 7 = true ∧
    (∀ i ∈ gdfQueryOrder.sindexQuery 7 7, i < gdfQueryOrder.features.length) ∧
    (∀ i (hi : i < gdfQueryOrder.features.length),
      (gdfQueryOrder.features.get ⟨i, hi⟩).containsPt 7 7 = true →
        i ∈ gdfQueryOrder.sindexQuery 7 7) ∧
    get_soil_type (some gdfQueryOrder) 7 7 = "B" ∧
    featUnit.snum.getD "Unknown" = "A" ∧
    ("B" : String) ≠ "A" := by
  refine ⟨by decide, by decide, by decide, by decide, by rfl, by rfl, by decide⟩

theorem first_precise_of_sorted_query (fs : List Feature) (lon lat : ℚ) :
    ∀ (idxs : List ℕ), List.Pairwise (· < ·) idxs →
    (∀ i ∈ idxs, i < fs.length) →
    ∀ (k : ℕ) (hk : k < fs.length), k ∈ idxs →
    (fs.get ⟨k, hk⟩).containsPt lon lat = true →
    (∀ m (hm : m < fs.length), m < k →
      (fs.get ⟨m, hm⟩).containsPt lon lat = false) →
    ((idxs.filterMap (fun i => fs.get? i)).filter
        (fun f => f.containsPt lon lat)).head? = some (fs.get ⟨k, hk⟩) := by
  intro idxs
  induction idxs with
  | nil => intro _ _ k hk hkin _ _; cases hkin
  | cons i rest ih =>
      intro hasc hvalid k hk hkin hkc hkmin
      have hiv : i < fs.length := hvalid i (List.mem_cons_self i rest)
      have hget : fs.get? i = some (fs.get ⟨i, hiv⟩) := List.get?_eq_get hiv
      have hfm : (i :: rest).filterMap (fun j => fs.get? j) =
          fs.get ⟨i, hiv⟩ :: rest.filterMap (fun j => fs.get? j) := by
        rw [List.filterMap_cons, hget]
      rw [hfm]
      by_cases hc : (fs.get ⟨i, hiv⟩).containsPt lon lat = true
      · have hik : i = k := by
          rcases List.mem_cons.mp hkin with h | h
          · exact h.symm
          · exfalso
            have hlt : i < k := (List.pairwise_cons.mp hasc).1 k h
            have hfalse := hkmin i hiv hlt
            rw [hc] at hfalse
            simp at hfalse
        subst hik
        rw [List.filter_cons, if_pos hc]
        rfl
      · have hik : i ≠ k := by
          intro he
          subst he
          exact hc hkc
        have hkrest : k ∈ rest := by
          rcases List.mem_cons.mp hkin with h | h
          · exact absurd h.symm hik
          · exact h
        rw [List.filter_cons, if_neg hc]
        exact ih (List.pairwise_cons.mp hasc).2
          (fun j hj => hvalid j (List.mem_cons_of_mem i hj)) k hk hkrest hkc hkmin

/-- C1 amended: when the spatial index returns its candidate positions in
ascending load order — an ordering geopandas does not guarantee, and whose
absence flips the result, see `soil_query_order_cex` — a query point
contained in two or more overlapping polygons resolves to the attribute of
the containing polygon with the lowest load-order index; and the lookup is
a pure function of the loaded index and the point, so every call with that
point returns the same attribute.  `hvalid` and `hcover` are the
index-soundness invariants (candidates are valid row positions; no
containing row is missed, bounding boxes being supersets of their
geometries), and `k` is the lowest containing load index. -/
theorem soil_lowest_index_of_sorted_query (g : Gdf) (lon lat : ℚ)
    (hasc : List.Pairwise (· < ·) (g.sindexQuery lon lat))
    (hvalid : ∀ i ∈ g.sindexQuery lon lat, i < g.features.length)
    (hcover : ∀ i (hi : i < g.features.length),
      (g.features.get ⟨i, hi⟩).containsPt lon lat = true →
      i ∈ g.sindexQuery lon lat)
    (a b : ℕ) (ha : a < g.features.length) (hb : b < g.features.length)
    (hab : a ≠ b)
    (hca : (g.features.get ⟨a, ha⟩).containsPt lon lat = true)
    (hcb : (g.features.get ⟨b, hb⟩).containsPt lon lat = true)
    (k : ℕ) (hk : k < g.features.length)
    (hkc : (g.features.get ⟨k, hk⟩).containsPt lon lat = true)
    (hkmin : ∀ m (hm : m < g.features.length), m < k →
      (g.features.get ⟨m, hm⟩).containsPt lon lat = false) :
    get_soil_type (some g) lon lat =
      (g.features.get ⟨k, hk⟩).snum.getD "Unknown" := by
  have hhead := first_precise_of_sorted_query g.features lon lat
    (g.sindexQuery lon lat) hasc hvalid k hk (hcover k hk hkc) hkc hkmin
  simp only [get_soil_type]
  cases hfl : ((g.sindexQuery lon lat).filterMap
      (fun i => g.features.get? i)).filter (fun f => f.containsPt lon lat) with
  | nil => rw [hfl] at hhead; simp at hhead
  | cons f t =>
      rw [hfl] at hhead
      simp only [List.head?_cons, Option.some.injEq] at hhead
      subst hhead
      rfl

/-- The same two overlapping polygons behind a spatial index that happens
to return its candidates in ascending order. -/
def gdfAsc : Gdf :=
  { features := [featUnit, featOverlap]
    sindexQuery := fun _ _ => [0, 1] }

theorem soil_lowest_index_of_sorted_query_witness :
    List.Pairwise (fun i j => i < j) (gdfAsc.sindexQuery 7 7) ∧
    featUnit.containsPt 7 7 = true ∧ featOverlap.containsPt 7 7 = true ∧
    get_soil_type (some gdfAsc) 7 7 = featUnit.snum.getD "Unknown" := by
  refine ⟨by decide, by decide, by decide, ?_⟩
  exact soil_lowest_index_of_sorted_query gdfAsc 7 7 (by decide) (by decide)
    (by decide) 0 1 (by decide) (by decide) (by decide) (by decide)
    (by decide) 0 (by decide) (by decide)
    (by intro m hm h; exact absurd h (Nat.not_lt_zero m))

/-- C3 counterexample: at the concrete out-of-domain input lon = 10,
lat = 100 (so |lat| > 90), `convert_coords` does not fail with
`InvalidCoordinate`: it returns a coordinate pair (the transformer's
infinite output), because the source performs no validation. -/
theorem convert_coords_no_validation_cex :
    convert_coords pyprojModelTf (PyFloat.val 10) (PyFloat.val 100) =
      Except.ok (PyFloat.inf, PyFloat.inf) := by
  rfl

/-- C3 amended: `convert_coords` performs no domain or finiteness check on
its inputs; for every transformer and every input — finite or not, in
domain or not — it returns a coordinate pair and never an
`InvalidCoordinate` error. -/
theorem convert_coords_always_returns_pair
    (tf : PyFloat → PyFloat → PyFloat × PyFloat) (lon lat : PyFloat) :
    (convert_coords tf lon lat).isOk = true := by
  rfl

/-- A raster pixel value: either not-a-number or a finite number. -/
inductive Pixel where
  | nan
  | val (q : ℚ)
deriving DecidableEq, Repr

/-- The opened slope GeoTIFF (`rasterio.open(slope_tif)`), reduced to the
pieces `get_slope` reads: the bounds rectangle, the grid dimensions, the
nodata sentinel, the band-1 pixel grid (`src.read`), the coordinate
conversion into the raster CRS (`convert_coords(lon, lat, src.crs)`
restricted to finite coordinates), and the fractional (row, col) given by
the inverse affine transform — `src.index(x, y)` floors that fraction with
the default `op=math.floor`. -/
structure Raster where
  bounds_left : ℚ
  bounds_bottom : ℚ
  bounds_right : ℚ
  bounds_top : ℚ
  height : ℕ
  width : ℕ
  nodata : Option ℚ
  convert : ℚ → ℚ → ℚ × ℚ
  rowcolFrac : ℚ → ℚ → ℚ × ℚ
  read : ℕ → ℕ → Pixel

/-- Result of `get_slope`: the source returns the string
`"Error: Raster file not loaded on server"`, the string
`"Error during processing"` (from the `except` clause), `None`, or a float. -/
inductive SlopeResult where
  | errorNotLoaded
  | errorProcessing
  | null
  | value (v : ℚ)
deriving DecidableEq, Repr

/-- Embedding of `get_slope` (src/main.py lines 109-128).  The guards mirror
the source exactly: the inclusive bounds-rectangle check, the floored pixel
indices checked against `[0, height) × [0, width)`, the single-pixel window
read, and the nodata/NaN test
`src.nodata is not None and slope_value == src.nodata or np.isnan(slope_value)`
(Python parses this as `(nodata is not None and value == nodata) or
isnan(value)`; an `==` against a NaN sentinel is always false in float
semantics, so `nodata` carries only a finite sentinel).  The model's
operations are total, so the `except` branch is unreachable here. -/
def get_slope (slope_tif : Option Raster) (lon lat : ℚ) : SlopeResult :=
  match slope_tif with
  | none => SlopeResult.errorNotLoaded
  | some src =>
    let xy := src.convert lon lat
    if src.bounds_left ≤ xy.1 ∧ xy.1 ≤ src.bounds_right ∧
        src.bounds_bottom ≤ xy.2 ∧ xy.2 ≤ src.bounds_top then
      let rc := src.rowcolFrac xy.1 xy.2
      let row : ℤ := ⌊rc.1⌋
      let col : ℤ := ⌊rc.2⌋
      if 0 ≤ row ∧ row < (src.height : ℤ) ∧ 0 ≤ col ∧ col < (src.width : ℤ) then
        match src.read row.toNat col.toNat with
        | Pixel.nan => SlopeResult.null
        | Pixel.val v =>
            if src.nodata = some v then SlopeResult.null
            else SlopeResult.value v
      else SlopeResult.null
    else SlopeResult.null

/-- C2: with the raster loaded, a point whose raster-CRS coordinates fall
outside the bounds rectangle, and likewise a point that passes the bounds
check but whose floored pixel indices fall outside
`[0, height) × [0, width)`, makes `get_slope` return null — never an
error. -/
theorem slope_out_of_grid_null (src : Raster) (lon lat x y : ℚ)
    (hconv : src.convert lon lat = (x, y))
    (h : ¬(src.bounds_left ≤ x ∧ x ≤ src.bounds_right ∧
            src.bounds_bottom ≤ y ∧ y ≤ src.bounds_top)
       ∨ ((src.bounds_left ≤ x ∧ x ≤ src.bounds_right ∧
            src.bounds_bottom ≤ y ∧ y ≤ src.bounds_top) ∧
          ¬(0 ≤ ⌊(src.rowcolFrac x y).1⌋ ∧
            ⌊(src.rowcolFrac x y).1⌋ < (src.height : ℤ) ∧
            0 ≤ ⌊(src.rowcolFrac x y).2⌋ ∧
            ⌊(src.rowcolFrac x y).2⌋ < (src.width : ℤ)))) :
    get_slope (some src) lon lat = SlopeResult.null := by
  rcases h with hout | ⟨hin, hidx⟩
  · simp only [get_slope, hconv]
    rw [if_neg hout]
  · simp only [get_slope, hconv]
    rw [if_pos hin, if_neg hidx]

def rasterW : Raster :=
  { bounds_left := 0, bounds_bottom := 0, bounds_right := 10, bounds_top := 10
    height := 10, width := 10
    nodata := some (-9999)
    convert := fun a b => (a, b)
    rowcolFrac := fun x y => (10 - y, x)
    read := fun r c => if r = 2 ∧ c = 3 then Pixel.val (-9999) else Pixel.val 5 }

theorem slope_out_of_grid_null_witness :
    rasterW.convert 20 5 = (20, 5) ∧
    ¬(rasterW.bounds_left ≤ 20 ∧ (20 : ℚ) ≤ rasterW.bounds_right ∧
      rasterW.bounds_bottom ≤ 5 ∧ (5 : ℚ) ≤ rasterW.bounds_top) ∧
    get_slope (some rasterW) 20 5 = SlopeResult.null :=
  ⟨by rfl, by decide,
   slope_out_of_grid_null rasterW 20 5 20 5 (by rfl) (Or.inl (by decide))⟩

/-- C4: with the raster loaded and the point landing on an in-grid pixel
(bounds check passed, floored indices in range), `get_slope` returns null
when the pixel is NaN, returns null when a nodata sentinel is declared and
the pixel equals it, and otherwise returns the pixel's value as a float. -/
theorem slope_in_grid_nodata_nan (src : Raster) (lon lat x y : ℚ)
    (hconv : src.convert lon lat = (x, y))
    (hin : src.bounds_left ≤ x ∧ x ≤ src.bounds_right ∧
           src.bounds_bottom ≤ y ∧ y ≤ src.bounds_top)
    (hidx : 0 ≤ ⌊(src.rowcolFrac x y).1⌋ ∧
            ⌊(src.rowcolFrac x y).1⌋ < (src.height : ℤ) ∧
            0 ≤ ⌊(src.rowcolFrac x y).2⌋ ∧
            ⌊(src.rowcolFrac x y).2⌋ < (src.width : ℤ)) :
    (src.read ⌊(src.rowcolFrac x y).1⌋.toNat ⌊(src.rowcolFrac x y).2⌋.toNat =
        Pixel.nan →
      get_slope (some src) lon lat = SlopeResult.null) ∧
    (∀ v, src.read ⌊(src.rowcolFrac x y).1⌋.toNat ⌊(src.rowcolFrac x y).2⌋.toNat =
        Pixel.val v →
      (src.nodata = some v → get_slope (some src) lon lat = SlopeResult.null) ∧
      (src.nodata ≠ some v → get_slope (some src) lon lat = SlopeResult.value v)) := by
  constructor
  · intro hnan
    simp only [get_slope, hconv]
    rw [if_pos hin, if_pos hidx, hnan]
  · intro v hval
    constructor
    · intro hnd
      simp only [get_slope, hconv]
      rw [if_pos hin, if_pos hidx, hval]
      simp [hnd]
    · intro hnd
      simp only [get_slope, hconv]
      rw [if_pos hin, if_pos hidx, hval]
      simp [hnd]

theorem slope_in_grid_nodata_nan_witness :
    (rasterW.convert 3 8 = (3, 8) ∧
     (rasterW.bounds_left ≤ 3 ∧ (3 : ℚ) ≤ rasterW.bounds_right ∧
      rasterW.bounds_bottom ≤ 8 ∧ (8 : ℚ) ≤ rasterW.bounds_top)) ∧
    get_slope (some rasterW) 3 8 = SlopeResult.null :=
  ⟨⟨by rfl, by decide⟩,
   ((slope_in_grid_nodata_nan rasterW 3 8 3 8 (by rfl) (by decide)
      (by norm_num [rasterW])).2 (-9999)
        (by norm_num [rasterW]; decide)).1 (by decide)⟩

/-- Outcome of the `/get_geo_data` request handler: the 400 response for
missing coordinates, the 200 JSON response, or an exception raised inside
the handler body and not caught by it (the handler has no try/except: a
`ValueError` from `float(...)` escapes to the framework). -/
inductive GeoResponse where
  | badRequest
  | ok (slope : Option ℚ) (soil : Option String)
  | uncaughtValueError (offending : String)
deriving DecidableEq, Repr

/-- Embedding of `get_geo_data` (src/main.py lines 133-147).  `lat` and
`lon` are the parsed query parameters (`None` when missing or unparsable).
The response serialization `float(slope) if slope is not None else None`
converts the slope result with Python's `float()`: a numeric result passes
through, `None` yields null, but the error *strings* `get_slope` returns
("Error: Raster file not loaded on server", "Error during processing") are
not `None`, so `float()` is applied to them and raises an uncaught
`ValueError` carrying the offending string.  The soil string goes through
`str(...)` and is always serializable. -/
def get_geo_data (slope_tif : Option Raster) (soil_gdf : Option Gdf)
    (lat lon : Option ℚ) : GeoResponse :=
  match lat, lon with
  | some la, some lo =>
    let slope := get_slope slope_tif lo la
    let soil := get_soil_type soil_gdf lo la
    match slope with
    | SlopeResult.value v => GeoResponse.ok (some v) (some soil)
    | SlopeResult.null => GeoResponse.ok none (some soil)
    | SlopeResult.errorNotLoaded =>
        GeoResponse.uncaughtValueError "Error: Raster file not loaded on server"
    | SlopeResult.errorProcessing =>
        GeoResponse.uncaughtValueError "Error during processing"
  | _, _ => GeoResponse.badRequest

/-- C9 (code bug): with well-formed finite coordinates but the slope raster
not loaded, the internal failure is NOT converted into a structured failure
response: `get_slope` reports it as the string
"Error: Raster file not loaded on server", and the handler's
`float(slope)` raises a `ValueError` that escapes the handler unhandled. -/
theorem geo_handler_uncaught_value_error (soil_gdf : Option Gdf)
    (la lo : ℚ) :
    get_geo_data none soil_gdf (some la) (some lo) =
      GeoResponse.uncaughtValueError "Error: Raster file not loaded on server" := by
  rfl

/-- A JSON value in the request body of `/predict` (the fragment the
handler consumes: numbers, strings, null). -/
inductive JVal where
  | num (q : ℚ)
  | str (s : String)
  | null
deriving DecidableEq, Repr

/-- `data.get(key, 0)`: the value stored under `key`, defaulting to the
Python int `0`. -/
def jGetD (data : List (String × JVal)) (k : String) : JVal :=
  (data.lookup k).getD (JVal.num 0)

def digitsToNat (cs : List Char) : ℕ :=
  cs.foldl (fun n c => 10 * n + (c.toNat - 48)) 0

/-- Python `float(s)` on a decimal string literal: optional sign, digits
with an optional single decimal point (at least one digit).  Anything else
fails to parse. -/
def parseDecimal? (s : String) : Option ℚ :=
  let cs := s.data
  let signBody : ℚ × List Char :=
    match cs with
    | '-' :: rest => (-1, rest)
    | '+' :: rest => (1, rest)
    | _ => (1, cs)
  let sign := signBody.1
  let body := signBody.2
  let intPart := body.takeWhile Char.isDigit
  let rest := body.dropWhile Char.isDigit
  match rest with
  | [] =>
      if intPart.isEmpty then none
      else some (sign * (digitsToNat intPart : ℚ))
  | '.' :: frac =>
      if frac.all Char.isDigit ∧ ¬(intPart.isEmpty ∧ frac.isEmpty) then
        some (sign * ((digitsToNat intPart : ℚ) +
          (digitsToNat frac : ℚ) / (10 ^ frac.length : ℚ)))
      else none
  | _ => none

/-- Python `int(s)` on a string: optional sign followed by digits only. -/
def parseIntLit? (s : String) : Option ℤ :=
  let cs := s.data
  match cs with
  | '-' :: rest =>
      if ¬rest.isEmpty ∧ rest.all Char.isDigit then
        some (-(digitsToNat rest : ℤ))
      else none
  | '+' :: rest =>
      if ¬rest.isEmpty ∧ rest.all Char.isDigit then
        some ((digitsToNat rest : ℤ))
      else none
  | _ =>
      if ¬cs.isEmpty ∧ cs.all Char.isDigit then
        some ((digitsToNat cs : ℤ))
      else none

/-- Python `int()` truncates a real number toward zero. -/
def rat_trunc (q : ℚ) : ℤ := q.num / (q.den : ℤ)

/-- Python `float(v)` on a JSON value: numbers pass through, strings are
parsed as decimal literals or raise `ValueError`, `None` raises
`TypeError`. -/
def py_float : JVal → Except String ℚ
  | JVal.num q => Except.ok q
  | JVal.str s =>
      match parseDecimal? s with
      | some q => Except.ok q
      | none => Except.error ("could not convert string to float: " ++ s)
  | JVal.null =>
      Except.error "float() argument must be a string or a real number, not NoneType"

/-- Python `int(v)` on a JSON value: numbers truncate toward zero, strings
must be integer literals, `None` raises `TypeError`. -/
def py_int : JVal → Except String ℤ
  | JVal.num q => Except.ok (rat_trunc q)
  | JVal.str s =>
      match parseIntLit? s with
      | some z => Except.ok z
      | none => Except.error ("invalid literal for int() with base 10: " ++ s)
  | JVal.null =>
      Except.error "int() argument must be a string, a bytes-like object or a real number, not NoneType"

/-- The per-element conversions of the `features` list display in `predict`
(src/main.py lines 158-174), in source order.  Python evaluates the list's
element expressions left to right and the first exception aborts the list;
`exceptSeq` below realizes exactly that. -/
def field_parses (data : List (String × JVal)) : List (Except String ℚ) :=
  [(py_int (jGetD data "soil_type")).map (fun z => (z : ℚ)),
   py_float (jGetD data "slope"),
   py_float (jGetD data "soil_moisture"),
   py_float (jGetD data "rainfall-3-hr"),
   py_float (jGetD data "rainfall-6-hr"),
   py_float (jGetD data "rainfall-12-hr"),
   py_float (jGetD data "rain-intensity-3-hr"),
   py_float (jGetD data "rain-intensity-6hr"),
   py_float (jGetD data "rain-intensity-12-hr"),
   py_float (jGetD data "rainfall-1-day"),
   py_float (jGetD data "rainfall-3-day"),
   py_float (jGetD data "rainfall-5-day"),
   py_float (jGetD data "rain-intensity-1-day"),
   py_float (jGetD data "rain-intensity-3-day"),
   py_float (jGetD data "rain-intensity-5-day")]

/-- Evaluate a list of fallible element expressions left to right; the
first failure aborts the whole list (Python's evaluation of a list
display). -/
def exceptSeq : List (Except String ℚ) → Except String (List ℚ)
  | [] => Except.ok []
  | e :: es =>
      match e with
      | Except.error msg => Except.error msg
      | Except.ok q =>
          match exceptSeq es with
          | Except.error msg => Except.error msg
          | Except.ok qs => Except.ok (q :: qs)

/-- The `features` list of `predict` (src/main.py lines 158-174). -/
def build_features (data : List (String × JVal)) : Except String (List ℚ) :=
  exceptSeq (field_parses data)

/-- The 15 request-body keys read by `predict`, in the order the feature
vector is assembled.  Position 7 (the 6-hour rain intensity) reads
`"rain-intensity-6hr"`, spelled without the second hyphen, unlike its
3-hour and 12-hour siblings. -/
def fieldKeys : List String :=
  ["soil_type", "slope", "soil_moisture", "rainfall-3-hr", "rainfall-6-hr",
   "rainfall-12-hr", "rain-intensity-3-hr", "rain-intensity-6hr",
   "rain-intensity-12-hr", "rainfall-1-day", "rainfall-3-day",
   "rainfall-5-day", "rain-intensity-1-day", "rain-intensity-3-day",
   "rain-intensity-5-day"]

theorem exceptSeq_ok_length (es : List (Except String ℚ)) (v : List ℚ)
    (h : exceptSeq es = Except.ok v) : v.length = es.length := by
  induction es generalizing v with
  | nil => simp [exceptSeq] at h; simp [h.symm]
  | cons e es ih =>
      cases e with
      | error msg => simp [exceptSeq] at h
      | ok q =>
          cases hseq : exceptSeq es with
          | error msg => rw [exceptSeq, hseq] at h; cases h
          | ok qs =>
              rw [exceptSeq, hseq] at h
              cases h
              simp [ih qs hseq]

theorem exceptSeq_ok_getD (es : List (Except String ℚ)) (v : List ℚ)
    (h : exceptSeq es = Except.ok v) :
    ∀ i, i < es.length → es.getD i (Except.ok 1) = Except.ok (v.getD i 1) := by
  induction es generalizing v with
  | nil => intro i hi; simp at hi
  | cons e es ih =>
      cases e with
      | error msg => simp [exceptSeq] at h
      | ok q =>
          cases hseq : exceptSeq es with
          | error msg => rw [exceptSeq, hseq] at h; cases h
          | ok qs =>
              rw [exceptSeq, hseq] at h
              cases h
              intro i hi
              cases i with
              | zero => simp
              | succ n =>
                  simp only [List.getD_cons_succ]
                  exact ih qs hseq n (by simpa using hi)

/-- C5: whenever the feature-vector builder succeeds, it produces exactly 15
values, position `i` is fed from the `i`-th schema key (the fixed order
[soil_type, slope, soil_moisture, rainfall_3h, rainfall_6h, rainfall_12h,
rain_intensity_3h, rain_intensity_6h, rain_intensity_12h, rainfall_1d,
rainfall_3d, rainfall_5d, rain_intensity_1d, rain_intensity_3d,
rain_intensity_5d], realized by `fieldKeys`), and every key absent from the
input contributes `0` at its position. -/
theorem features_schema_defaults (data : List (String × JVal)) (v : List ℚ)
    (h : build_features data = Except.ok v) :
    v.length = 15 ∧
    ∀ i, i < 15 → data.lookup (fieldKeys.getD i "") = none → v.getD i 1 = 0 := by
  have hlen := exceptSeq_ok_length (field_parses data) v h
  simp only [field_parses, List.length_cons, List.length_nil] at hlen
  refine ⟨hlen, ?_⟩
  intro i hi habs
  have hget := exceptSeq_ok_getD (field_parses data) v h i
    (by simpa [field_parses] using hi)
  interval_cases i <;>
    (simp only [fieldKeys, List.getD_cons_zero, List.getD_cons_succ] at habs
     simp [field_parses, jGetD, habs, py_float, py_int, rat_trunc, Except.map,
       List.getD_cons_zero, List.getD_cons_succ] at hget
     first
     | simpa [List.getD] using hget
     | simpa [List.getD] using hget.symm)

def zeros15 : List ℚ :=
  [0, 0, 0, 0, 0, 0, 0, 0, 0, 0, 0, 0, 0, 0, 0]

theorem features_schema_defaults_witness :
    build_features [] = Except.ok zeros15 ∧
    (zeros15.length = 15 ∧
     ∀ i, i < 15 →
       ([] : List (String × JVal)).lookup (fieldKeys.getD i "") = none →
       zeros15.getD i 1 = 0) :=
  ⟨by rfl, features_schema_defaults [] zeros15 (by rfl)⟩

/-- C10: a request body that carries the consistently hyphenated key
"rain-intensity-6-hr" but not the key "rain-intensity-6hr" the source
actually reads leaves position 7 (the 6-hour rain intensity) at `0`. -/
theorem intensity_6hr_key_mismatch (data : List (String × JVal)) (w : JVal)
    (v : List ℚ)
    (hpresent : data.lookup "rain-intensity-6-hr" = some w)
    (habsent : data.lookup "rain-intensity-6hr" = none)
    (h : build_features data = Except.ok v) :
    v.getD 7 1 = 0 := by
  have hget := exceptSeq_ok_getD (field_parses data) v h 7
    (by simp [field_parses])
  simp [field_parses, jGetD, habsent, py_float,
    List.getD_cons_zero, List.getD_cons_succ] at hget
  first
  | simpa [List.getD] using hget
  | simpa [List.getD] using hget.symm

theorem intensity_6hr_key_mismatch_witness :
    [("rain-intensity-6-hr", JVal.num 5)].lookup "rain-intensity-6-hr" =
      some (JVal.num 5) ∧
    [("rain-intensity-6-hr", JVal.num 5)].lookup "rain-intensity-6hr" = none ∧
    build_features [("rain-intensity-6-hr", JVal.num 5)] =
      Except.ok zeros15 ∧
    zeros15.getD 7 1 = 0 :=
  ⟨by rfl, by rfl, by rfl,
   intensity_6hr_key_mismatch [("rain-intensity-6-hr", JVal.num 5)]
     (JVal.num 5) zeros15 (by rfl) (by rfl) (by rfl)⟩

/-- `np.argmax`: index of the first occurrence of the maximum (a later
element replaces the running best only when strictly greater). -/
def argmaxAux : ℕ → ℕ → ℚ → List ℚ → ℕ
  | _, bi, _, [] => bi
  | i, bi, bv, x :: xs =>
      if bv < x then argmaxAux (i + 1) i x xs
      else argmaxAux (i + 1) bi bv xs

def np_argmax : List ℚ → ℕ
  | [] => 0
  | x :: xs => argmaxAux 1 0 x xs

/-- Python `max` over the probability row. -/
def py_max : List ℚ → ℚ
  | [] => 0
  | x :: xs => xs.foldl max x

/-- Two-decimal rounding used by the `f"{...:.2f}%"` formatting of the
confidence percentage. -/
def round2dp (q : ℚ) : ℚ := ((round (q * 100) : ℤ) : ℚ) / 100

/-- Response of the `/predict` handler: the 503 for missing model
artifacts, the 400 carrying `str(e)` from the `except` clause, or the 200
payload (its confidence kept as the two-decimal-rounded percentage the
formatted string prints). -/
inductive PredictResponse where
  | serviceUnavailable (msg : String)
  | badRequest (msg : String)
  | success (prediction : String) (confidencePct : ℚ)
deriving DecidableEq, Repr

/-- Embedding of the `/predict` handler (src/main.py lines 150-190).
`model` and `scaler` are the unpickled artifacts (`None` when loading
failed at startup; a loaded sklearn estimator is truthy, so
`if not model or not scaler` is exactly the `None` test).  `scaler`
maps a feature row to its scaled row (`scaler.transform([features])[0]`)
and `model` maps the scaled row to the probability row
(`model.predict_proba(...)[0]`).  A parse failure in the features list is
caught by the `except` clause and becomes the 400 response carrying
`str(e)`. -/
def predict (model scaler : Option (List ℚ → List ℚ))
    (data : List (String × JVal)) : PredictResponse :=
  match model, scaler with
  | some m, some sc =>
    (match build_features data with
     | Except.error e => PredictResponse.badRequest e
     | Except.ok features =>
       let probabilities := m (sc features)
       let prediction := np_argmax probabilities
       PredictResponse.success
         (if prediction = 1 then "Landslide" else "No Landslide")
         (round2dp (100 * py_max probabilities)))
  | _, _ =>
      PredictResponse.serviceUnavailable
        "Machine learning models are not loaded on the server"

/-- C6: on a two-class probability row `[p0, p1]`, the predicted label is
the class with the maximum probability — a tie resolves to the
lower-indexed class 0 ("No Landslide") because `np.argmax` keeps the first
maximum — and the reported confidence is the maximum probability as a
percentage rounded to two decimals. -/
theorem predict_argmax_tiebreak (m sc : List ℚ → List ℚ)
    (data : List (String × JVal)) (features : List ℚ) (p0 p1 : ℚ)
    (hb : build_features data = Except.ok features)
    (hp : m (sc features) = [p0, p1]) :
    (p1 ≤ p0 → predict (some m) (some sc) data =
        PredictResponse.success "No Landslide" (round2dp (100 * p0))) ∧
    (p0 < p1 → predict (some m) (some sc) data =
        PredictResponse.success "Landslide" (round2dp (100 * p1))) := by
  constructor
  · intro hle
    have harg : np_argmax [p0, p1] = 0 := by
      simp [np_argmax, argmaxAux, not_lt.2 hle]
    have hmax : py_max [p0, p1] = p0 := by
      simp [py_max, max_eq_left hle]
    simp [predict, hb, hp, harg, hmax]
  · intro hlt
    have harg : np_argmax [p0, p1] = 1 := by
      simp [np_argmax, argmaxAux, hlt]
    have hmax : py_max [p0, p1] = p1 := by
      simp [py_max, max_eq_right (le_of_lt hlt)]
    simp [predict, hb, hp, harg, hmax]

theorem predict_argmax_tiebreak_witness :
    build_features [] = Except.ok zeros15 ∧
    (fun _ : List ℚ => [(1 : ℚ)/2, 1/2]) ((fun l => l) zeros15) = [(1 : ℚ)/2, 1/2] ∧
    ((1 : ℚ)/2 ≤ 1/2) ∧
    predict (some (fun _ => [(1 : ℚ)/2, 1/2])) (some (fun l => l)) [] =
      PredictResponse.success "No Landslide" (round2dp (100 * ((1 : ℚ)/2))) :=
  ⟨by rfl, by rfl, le_refl _,
   (predict_argmax_tiebreak (fun _ => [(1 : ℚ)/2, 1/2]) (fun l => l) []
      zeros15 (1/2) (1/2) (by rfl) (by rfl)).1 (le_refl _)⟩

/-- C7: when the classifier or the scaler artifact failed to load at
startup (its global is `None`), every `/predict` request fails immediately
with the 503 "models are not loaded" response; the handler consults only
the startup-time globals, so no lazy load or retry is possible. -/
theorem predict_503_when_models_missing
    (model scaler : Option (List ℚ → List ℚ)) (data : List (String × JVal))
    (h : model = none ∨ scaler = none) :
    predict model scaler data =
      PredictResponse.serviceUnavailable
        "Machine learning models are not loaded on the server" := by
  rcases h with h | h
  · subst h; cases scaler <;> rfl
  · subst h; cases model <;> rfl

theorem predict_503_when_models_missing_witness :
    ((none : Option (List ℚ → List ℚ)) = none ∨
      (some (fun l : List ℚ => l)) = none) ∧
    predict none (some (fun l => l)) [] =
      PredictResponse.serviceUnavailable
        "Machine learning models are not loaded on the server" :=
  ⟨Or.inl rfl,
   predict_503_when_models_missing none (some (fun l => l)) [] (Or.inl rfl)⟩

/-- C8: with the artifacts loaded, a request field that cannot be parsed as
the expected numeric/integer type makes the handler return the 400 response
carrying the parse error — a per-request caller-input failure, a different
response from the 503 resource-unavailable one. -/
theorem predict_400_on_unparsable (m sc : List ℚ → List ℚ)
    (data : List (String × JVal)) (e : String)
    (h : build_features data = Except.error e) :
    predict (some m) (some sc) data = PredictResponse.badRequest e ∧
    ∀ msg, PredictResponse.badRequest e ≠ PredictResponse.serviceUnavailable msg := by
  constructor
  · simp [predict, h]
  · intro msg hne
    cases hne

theorem predict_400_on_unparsable_witness :
    build_features [("slope", JVal.str "abc")] =
      Except.error "could not convert string to float: abc" ∧
    (predict (some (fun l => l)) (some (fun l => l))
        [("slope", JVal.str "abc")] =
      PredictResponse.badRequest "could not convert string to float: abc" ∧
    ∀ msg, PredictResponse.badRequest "could not convert string to float: abc" ≠
      PredictResponse.serviceUnavailable msg) :=
  ⟨by rfl,
   predict_400_on_unparsable (fun l => l) (fun l => l)
     [("slope", JVal.str "abc")] "could not convert string to float: abc"
     (by rfl)⟩
